import Mathlib

/-!
Shallow embedding of the sktime estimator-contract test harness
(`sktime/classification/tests/test_all_classifiers.py`) and of the composite
series transformers (`sktime/transformations/series/compose.py`), together
with proofs settling the specification claims about them.

Numbers appearing in data (probabilities, series values) are modelled as
rationals; missing values (`np.nan`) as `Option.none`.
-/

set_option autoImplicit false

namespace Sktime

/-- Python exception model: the standard exception classes raised by the code
under study, each carrying its message. -/
inductive PyError where
  | valueError (msg : String)
  | typeError (msg : String)
  | notFittedError (msg : String)
  | attributeError (msg : String)
  | keyError (msg : String)
  deriving Repr, DecidableEq

/-- Whether the character list `pat` occurs as a prefix of `hay`. -/
def charsAreStart (pat hay : List Char) : Bool :=
  match pat, hay with
  | [], _ => true
  | _ :: _, [] => false
  | p :: ps, h :: hs => p = h && charsAreStart ps hs

/-- Whether the character list `pat` occurs contiguously inside `hay`. -/
def charsContain (hay pat : List Char) : Bool :=
  match hay with
  | [] => pat.isEmpty
  | _ :: t => charsAreStart pat hay || charsContain t pat

/-- Substring containment on strings.  This models `re.search(pat, msg)` for a
literal pattern without regex metacharacters, which is how `pytest.raises` and
`pytest.warns` interpret their `match` argument for the plain pattern
`"multivariate series"`. -/
def strContains (hay pat : String) : Bool :=
  charsContain hay.toList pat.toList

/-- Outcome of running one pytest test function. -/
inductive TestOutcome where
  | passed
  | failed
  | skipped
  deriving Repr, DecidableEq

/-! ## Classifier test harness

`TestAllClassifiers` runs each test on every classifier instance and scenario
produced by the fixture generator.  The estimator instances and scenarios are
external to the harness; they are modelled by records recording the tags and
the observable behaviour that the test functions inspect. -/

/-- Observable outcome of running a method sequence of a scenario on an
estimator: normal return, a raised exception, or a `UserWarning` emitted. -/
inductive RunOutcome where
  | normal
  | raises (e : PyError)
  | warnsUser (msg : String)
  deriving Repr, DecidableEq

/-- Model of one classifier estimator instance as seen by
`test_multivariate_input_exception`: its tags, compositeness, presence of the
`_get_train_probs` method, and the outcome of running `fit` on the
`ClassifierFitPredictMultivariate` scenario. -/
structure ClassifierInstance where
  capabilityMultivariate : Bool
  isComposite : Bool
  capabilityTrainEstimate : Bool
  hasGetTrainProbs : Bool
  fitMultivariate : RunOutcome
  deriving Repr, DecidableEq

/-- Whether an outcome is a raised `ValueError` whose message matches `pat`:
the condition checked by `pytest.raises(ValueError, match=pat)`. -/
def raisesValueErrorMatching (o : RunOutcome) (pat : String) : Bool :=
  match o with
  | .raises (.valueError m) => strContains m pat
  | _ => false

/-- Whether an outcome is an emitted `UserWarning` whose message matches `pat`:
the condition checked by `pytest.warns(UserWarning, match=pat)`. -/
def warnsUserWarningMatching (o : RunOutcome) (pat : String) : Bool :=
  match o with
  | .warnsUser m => strContains m pat
  | _ => false

/-- Whether an outcome is a raised exception (of any of the modelled classes)
whose message matches `pat`: the reading of claim C1 as stated. -/
def raisesExceptionMatching (o : RunOutcome) (pat : String) : Bool :=
  match o with
  | .raises (.valueError m) => strContains m pat
  | .raises (.typeError m) => strContains m pat
  | .raises (.notFittedError m) => strContains m pat
  | .raises (.attributeError m) => strContains m pat
  | .raises (.keyError m) => strContains m pat
  | _ => false

/-- `TestAllClassifiers.test_multivariate_input_exception`: estimators with the
`capability:multivariate` tag are returned from unconditionally; composite
estimators must emit a `UserWarning` matching `"multivariate series"` when fit
on the multivariate scenario; non-composite estimators must raise a
`ValueError` matching `"multivariate series"`. -/
def test_multivariate_input_exception (est : ClassifierInstance) : TestOutcome :=
  if est.capabilityMultivariate then .passed
  else if est.isComposite then
    if warnsUserWarningMatching est.fitMultivariate "multivariate series" then .passed else .failed
  else
    if raisesValueErrorMatching est.fitMultivariate "multivariate series" then .passed else .failed

/-- Model of one classification scenario as seen by `test_classifier_output`:
its `n_classes` tag, the number of instances of the predict panel (obtained in
the test through `check_is_scitype` metadata), and the training labels. -/
structure ClassificationScenario where
  nClasses : Nat
  nInstancesNew : Nat
  yTrain : List Int
  deriving Repr, DecidableEq

/-- The arrays produced by running the scenario's method sequences on one
estimator instance: `predict` output, `predict_proba` output, and the train
probabilities returned by `_get_train_probs` when present. -/
structure ClassifierRun where
  yPred : List Int
  yProba : List (List ℚ)
  trainProba : List (List ℚ)
  deriving Repr, DecidableEq

/-- `np.unique`: the distinct values of the array.  The sorting `np.unique`
performs is irrelevant to the membership test the harness makes of it. -/
def npUnique (xs : List Int) : List Int :=
  xs.dedup

/-- `np.all(np.isin(a, b))`: every element of `a` occurs in `b`. -/
def npAllIsin (a b : List Int) : Bool :=
  a.all fun v => decide (v ∈ b)

/-- `np.testing.assert_almost_equal(actual, desired, decimal)` succeeds iff
`abs(desired - actual) < 1.5 * 10 ** (-decimal)`. -/
def npAlmostEqual (actual desired : ℚ) (decimal : Nat) : Bool :=
  |desired - actual| < 3 / (2 * 10 ^ decimal)

/-- Shape check for a 2-d numpy array modelled as a list of rows. -/
def matrixHasShape (m : List (List ℚ)) (rows cols : Nat) : Bool :=
  m.length = rows && m.all fun r => r.length = cols

/-- `TestAllClassifiers.test_classifier_output`: checks the shape of the
`predict` output, that the predicted values all occur among the training
labels, the shape of the `predict_proba` output, that each probability row
sums to 1 to 4 decimal places, and, for estimators with the
`capability:train_estimate` tag, the presence of `_get_train_probs` and the
row sums of the train probabilities. -/
def test_classifier_output (est : ClassifierInstance) (sc : ClassificationScenario)
    (run : ClassifierRun) : TestOutcome :=
  if run.yPred.length ≠ sc.nInstancesNew then .failed
  else if ¬ npAllIsin (npUnique run.yPred) (npUnique sc.yTrain) then .failed
  else if ¬ matrixHasShape run.yProba sc.nInstancesNew sc.nClasses then .failed
  else if ¬ run.yProba.all (fun row => npAlmostEqual row.sum 1 4) then .failed
  else if est.capabilityTrainEstimate then
    if ¬ est.hasGetTrainProbs then .failed
    else if ¬ matrixHasShape run.yProba sc.nInstancesNew sc.nClasses then .failed
    else if ¬ run.trainProba.all (fun row => npAlmostEqual row.sum 1 4) then .failed
    else .passed
  else .passed

/-- Model of one classifier class as seen by
`test_classifier_on_unit_test_data`: its name, whether its parameters include
`random_state`, and the `predict_proba` output of the `results_comparison`
test instance, fit on the unit-test training split and evaluated on the ten
test instances selected by `np.random.RandomState(0).choice`, as a function of
whether `random_state` was set to 0 beforehand. -/
structure ClassifierClass where
  name : String
  hasRandomState : Bool
  probaOnUnitTest : Bool → List (List ℚ)

/-- Modelled from the spec:
`sktime.utils._testing.estimator_checks._assert_array_almost_equal` is not
under `src/`; following numpy almost-equal semantics it succeeds iff the two
arrays have the same shape and agree elementwise to the given number of
decimal places. -/
def assertArrayAlmostEqual (actual desired : List (List ℚ)) (decimal : Nat) : Bool :=
  actual.length = desired.length &&
    (actual.zip desired).all fun p =>
      p.1.length = p.2.length &&
        (p.1.zip p.2).all fun q => npAlmostEqual q.1 q.2 decimal

/-- Association-list lookup, modelling Python `dict` access. -/
def assocLookup {α : Type} (l : List (String × α)) (k : String) : Option α :=
  match l with
  | [] => none
  | (k', v) :: rest => if k' = k then some v else assocLookup rest k

/-- `TestAllClassifiers.test_classifier_on_unit_test_data`: classes without an
entry in the `unit_test_proba` table are skipped; for classes with an entry,
the test instance (with `random_state` set to 0 when that parameter exists)
is fit on the unit-test training split and its `predict_proba` output on the
seed-0-selected test instances is compared against the frozen entry to 2
decimal places. -/
def test_classifier_on_unit_test_data (unit_test_proba : List (String × List (List ℚ)))
    (cls : ClassifierClass) : TestOutcome :=
  match assocLookup unit_test_proba cls.name with
  | none => .skipped
  | some expected =>
    let yProba := cls.probaOnUnitTest cls.hasRandomState
    if assertArrayAlmostEqual yProba expected 2 then .passed else .failed

/-! ## pandas series and data frame model

A `pd.Series` is an optional name, an index of labels, and positional values;
a `pd.DataFrame` is an index and an ordered association list of named columns.
`np.nan` is modelled as `Option.none`. -/

/-- A data value: a rational, or `none` for `np.nan`. -/
abbrev PVal := Option ℚ

/-- Model of `pd.Series`. -/
structure PSeries where
  name : Option String
  index : List Int
  values : List PVal
  deriving Repr, DecidableEq

/-- Model of `pd.DataFrame`: ordered named columns over a shared index. -/
structure PDataFrame where
  index : List Int
  cols : List (String × List PVal)
  deriving Repr, DecidableEq

/-- The column names of a frame, in order. -/
def PDataFrame.columns (df : PDataFrame) : List String :=
  df.cols.map Prod.fst

/-- Column selection `df[c]`, as a series named `c`. -/
def PDataFrame.getCol (df : PDataFrame) (c : String) : PSeries :=
  ⟨some c, df.index, (assocLookup df.cols c).getD []⟩

/-- Label lookup in a series (pandas index alignment): the value at index
label `i`, `none` when absent. -/
def PSeries.atLabel (s : PSeries) (i : Int) : PVal :=
  match (s.index.zip s.values).find? (fun p => p.1 = i) with
  | some p => p.2
  | none => none

/-- Replace the value of key `k` in an association list, appending at the end
when the key is absent — pandas column-assignment order. -/
def assocSet {α : Type} (l : List (String × α)) (k : String) (v : α) : List (String × α) :=
  match l with
  | [] => [(k, v)]
  | (k', w) :: rest => if k' = k then (k, v) :: rest else (k', w) :: assocSet rest k v

/-- Column assignment `df[c] = s` with a series right-hand side: pandas aligns
the series to the frame's index. -/
def PDataFrame.setCol (df : PDataFrame) (c : String) (s : PSeries) : PDataFrame :=
  ⟨df.index, assocSet df.cols c (df.index.map s.atLabel)⟩

/-- Column assignment `df[c] = a` with an array right-hand side (`.values`):
positional, no alignment. -/
def PDataFrame.setColValues (df : PDataFrame) (c : String) (v : List PVal) : PDataFrame :=
  ⟨df.index, assocSet df.cols c v⟩

/-- `pd.Series.to_frame`: a one-column frame whose column is the series name
(stringified `0` when the series is unnamed, as pandas uses the label `0`). -/
def PSeries.to_frame (s : PSeries) : PDataFrame :=
  ⟨s.index, [(s.name.getD "0", s.values)]⟩

/-- `df.squeeze("columns")`: a one-column frame becomes the column as a
series; other frames are returned unchanged. -/
def PDataFrame.squeezeColumns (df : PDataFrame) : PSeries ⊕ PDataFrame :=
  match df.cols with
  | [(c, v)] => .inl ⟨some c, df.index, v⟩
  | _ => .inr df

/-- Input to a series transformer: a `pd.Series` or a `pd.DataFrame`. -/
inductive SeriesInput where
  | ser (s : PSeries)
  | df (d : PDataFrame)
  deriving Repr, DecidableEq

/-- The series carried by a `SeriesInput`, when it is one. -/
def SeriesInput.asSeries : SeriesInput → Option PSeries
  | .ser s => some s
  | .df _ => none

/-- Cast to a frame: the `to_frame` cast both composite transformers apply to
univariate input. -/
def SeriesInput.toFrame : SeriesInput → PDataFrame
  | .ser s => s.to_frame
  | .df d => d

/-! ## Validation helpers shared by the transformers -/

/-- Modelled from the spec: `sktime.utils.validation.series.check_series`
(declared in `sktime/utils/validation/series.py`, which is not under `src/`)
validates that the input is a pandas series or data frame and returns it
unchanged; with neither enforcement flag set every modelled input is valid. -/
def check_series (Z : SeriesInput) : Except PyError SeriesInput :=
  .ok Z

/-- Modelled from the spec: `check_series` with `enforce_univariate=True`
raises a `ValueError` unless the input is a univariate `pd.Series`. -/
def check_series_univariate (Z : SeriesInput) : Except PyError PSeries :=
  match Z with
  | .ser s => .ok s
  | .df _ => .error (.valueError "Z must be a univariate series")

/-- Modelled from the spec: `check_series` with `enforce_multivariate=True`
raises a `ValueError` unless the input is a `pd.DataFrame`. -/
def check_series_multivariate (Z : SeriesInput) : Except PyError PDataFrame :=
  match Z with
  | .df d => .ok d
  | .ser _ => .error (.valueError "Z must be a multivariate series")

/-- Modelled from the spec: `check_is_fitted` from the estimator base class
(`sktime/base`, not under `src/`) raises a `NotFittedError` when the
estimator's `_is_fitted` flag is unset, per the wrapped ML framework's
fit/predict/transform convention. -/
def check_is_fitted (is_fitted : Bool) : Except PyError Unit :=
  match is_fitted with
  | true => .ok ()
  | false => .error (.notFittedError "This instance has not been fitted yet; please call fit first.")

/-- Whether a call outcome is a raised `NotFittedError`. -/
def raisedNotFitted {α : Type} (r : Except PyError α) : Bool :=
  match r with
  | .error (.notFittedError _) => true
  | _ => false

/-! ## Wrapped transformer model

The transformers wrapped by the composites are arbitrary scikit-learn-like or
sktime-like estimators; they are modelled by their behaviour: fitting yields
the fitted transform and inverse-transform maps.  `sklearn.base.clone` yields
a fresh unfitted estimator with the same parameters, so in this pure model
fitting a clone of `t` on data `Z` is `t.fitF Z X`. -/

/-- A fitted wrapped transformer: its transform and inverse-transform maps,
each taking the data and the optional exogenous frame. -/
structure FittedTransformer where
  transformF : SeriesInput → Option PDataFrame → SeriesInput
  invTransformF : SeriesInput → Option PDataFrame → SeriesInput

/-- An unfitted wrapped transformer: whether it exposes an
`inverse_transform` attribute (inspected by `if_delegate_has_method`), and
the map from fit data to the fitted transformer. -/
structure Transformer where
  hasInvTransform : Bool
  fitF : SeriesInput → Option PDataFrame → FittedTransformer

/-! ## OptionalPassthrough -/

/-- State of an `OptionalPassthrough` object: constructor parameters
`transformer` and `passthrough`, plus the mutable attributes `transformer_`
and `_is_fitted` set in `__init__` and updated by `fit`. -/
structure OptionalPassthrough where
  transformer : Transformer
  transformer_ : Option FittedTransformer
  passthrough : Bool
  is_fitted : Bool

/-- `OptionalPassthrough.__init__`: stores the parameters, sets
`transformer_ = None` and `_is_fitted = False`. -/
def OptionalPassthrough.init (transformer : Transformer) (passthrough : Bool) :
    OptionalPassthrough :=
  ⟨transformer, none, passthrough, false⟩

/-- `OptionalPassthrough.fit`: unless `passthrough`, clones the wrapped
transformer and fits it on `Z`; marks the object fitted and returns `self`. -/
def OptionalPassthrough.fit (op : OptionalPassthrough) (Z : SeriesInput)
    (X : Option PDataFrame) : OptionalPassthrough :=
  if op.passthrough then { op with is_fitted := true }
  else { op with transformer_ := some (op.transformer.fitF Z X), is_fitted := true }

/-- `OptionalPassthrough.transform`: checks the fitted state, validates `Z`,
and applies the fitted wrapped transformer unless `passthrough`. -/
def OptionalPassthrough.transform (op : OptionalPassthrough) (Z : SeriesInput)
    (X : Option PDataFrame) : Except PyError SeriesInput := do
  let _ ← check_is_fitted op.is_fitted
  let z ← check_series Z
  if op.passthrough then return z
  else
    match op.transformer_ with
    | some ft => return ft.transformF z X
    | none => throw (.attributeError "transformer_ is None")

/-- `OptionalPassthrough.inverse_transform`: the `if_delegate_has_method`
decorator makes the attribute unavailable when the wrapped transformer lacks
`inverse_transform`; otherwise checks the fitted state, validates `Z`, and
applies the fitted wrapped inverse transform unless `passthrough`. -/
def OptionalPassthrough.inverse_transform (op : OptionalPassthrough) (Z : SeriesInput)
    (X : Option PDataFrame) : Except PyError SeriesInput := do
  if ¬ op.transformer.hasInvTransform then
    throw (.attributeError "This OptionalPassthrough has no attribute inverse_transform")
  let _ ← check_is_fitted op.is_fitted
  let z ← check_series Z
  if op.passthrough then return z
  else
    match op.transformer_ with
    | some ft => return ft.invTransformF z X
    | none => throw (.attributeError "transformer_ is None")

/-! ## ColumnwiseTransformer -/

/-- `_check_columns`: raises a `ValueError` when some selected column is
missing from the frame (the set difference of the selected columns and the
frame's columns is nonempty). -/
def _check_columns (z : PDataFrame) (selected_columns : List String) : Except PyError Unit :=
  let difference := selected_columns.filter fun c => decide (c ∉ z.columns)
  if difference.isEmpty then .ok ()
  else .error (.valueError ("Missing columns" ++ String.intercalate ", " difference ++ "in Z."))

/-- `_check_is_pdseries`: casts a univariate series to a one-column frame and
remembers whether the input was a series. -/
def _check_is_pdseries (z : SeriesInput) : PDataFrame × Bool :=
  match z with
  | .ser s => (s.to_frame, true)
  | .df d => (d, false)

/-- State of a `ColumnwiseTransformer` object: constructor parameters
`transformer` and `columns`, plus the attributes `columns_`, `transformers_`
and `_is_fitted` set by `fit`. -/
structure ColumnwiseTransformer where
  transformer : Transformer
  columns : Option (List String)
  columns_ : List String
  transformers_ : List (String × FittedTransformer)
  is_fitted : Bool

/-- `ColumnwiseTransformer.__init__`: stores the parameters; the fitted
attributes do not exist yet. -/
def ColumnwiseTransformer.init (transformer : Transformer) (columns : Option (List String)) :
    ColumnwiseTransformer :=
  ⟨transformer, columns, [], [], false⟩

/-- `ColumnwiseTransformer.fit`: validates the input, casts a series to a
frame, sets `columns_` to the selected columns (all columns when `columns` is
`None`), checks those columns are present, and fits a fresh clone of the
wrapped transformer on each selected column. -/
def ColumnwiseTransformer.fit (ct : ColumnwiseTransformer) (Z : SeriesInput)
    (X : Option PDataFrame) : Except PyError ColumnwiseTransformer := do
  let ct := { ct with is_fitted := false }
  let z ← check_series Z
  let z := z.toFrame
  let cols_ := match ct.columns with
    | some cs => cs
    | none => z.columns
  let _ ← _check_columns z cols_
  let trs := cols_.map fun colname => (colname, ct.transformer.fitF (.ser (z.getCol colname)) X)
  return { ct with columns_ := cols_, transformers_ := trs, is_fitted := true }

/-- One iteration of the column loop of `ColumnwiseTransformer.transform`:
`z[colname] = transformers_[colname].transform(z[colname], X)`.  A missing
dictionary key raises a `KeyError`; a wrapped transform returning a frame
cannot be assigned to the column and raises a `ValueError`. -/
def applyOneColumn (trs : List (String × FittedTransformer)) (X : Option PDataFrame)
    (colname : String) (z : PDataFrame) : Except PyError PDataFrame :=
  match assocLookup trs colname with
  | none => .error (.keyError colname)
  | some ft =>
    match (ft.transformF (.ser (z.getCol colname)) X).asSeries with
    | none => .error (.valueError "Incompatible column assignment")
    | some s => .ok (z.setCol colname s)

/-- The column loop of `ColumnwiseTransformer.transform`: iterates
`applyOneColumn` over the selected columns in order. -/
def applyColumns (trs : List (String × FittedTransformer)) (X : Option PDataFrame) :
    List String → PDataFrame → Except PyError PDataFrame
  | [], z => .ok z
  | colname :: rest, z =>
    match applyOneColumn trs X colname z with
    | .ok z' => applyColumns trs X rest z'
    | .error e => .error e

/-- `ColumnwiseTransformer.transform`: checks the fitted state, validates and
frame-casts the input, copies it, checks the selected columns are present,
transforms each selected column in place on the copy, and squeezes back to a
series when the input was univariate. -/
def ColumnwiseTransformer.transform (ct : ColumnwiseTransformer) (Z : SeriesInput)
    (X : Option PDataFrame) : Except PyError SeriesInput := do
  let _ ← check_is_fitted ct.is_fitted
  let z ← check_series Z
  let (z, is_series) := _check_is_pdseries z
  let _ ← _check_columns z ct.columns_
  let z ← applyColumns ct.transformers_ X ct.columns_ z
  if is_series then
    return (match z.squeezeColumns with
      | .inl s => .ser s
      | .inr d => .df d)
  else return .df z

/-- One iteration of the column loop of
`ColumnwiseTransformer.inverse_transform`:
`z[colname] = transformers_[colname].inverse_transform(z[colname], X)`. -/
def applyOneColumnInv (trs : List (String × FittedTransformer)) (X : Option PDataFrame)
    (colname : String) (z : PDataFrame) : Except PyError PDataFrame :=
  match assocLookup trs colname with
  | none => .error (.keyError colname)
  | some ft =>
    match (ft.invTransformF (.ser (z.getCol colname)) X).asSeries with
    | none => .error (.valueError "Incompatible column assignment")
    | some s => .ok (z.setCol colname s)

/-- The column loop of `ColumnwiseTransformer.inverse_transform`, applying
the fitted inverse transforms columnwise. -/
def applyColumnsInv (trs : List (String × FittedTransformer)) (X : Option PDataFrame) :
    List String → PDataFrame → Except PyError PDataFrame
  | [], z => .ok z
  | colname :: rest, z =>
    match applyOneColumnInv trs X colname z with
    | .ok z' => applyColumnsInv trs X rest z'
    | .error e => .error e

/-- `ColumnwiseTransformer.inverse_transform`: as `transform`, but applies the
fitted inverse transforms; the `if_delegate_has_method` decorator makes the
attribute unavailable when the wrapped transformer lacks `inverse_transform`. -/
def ColumnwiseTransformer.inverse_transform (ct : ColumnwiseTransformer) (Z : SeriesInput)
    (X : Option PDataFrame) : Except PyError SeriesInput := do
  if ¬ ct.transformer.hasInvTransform then
    throw (.attributeError "This ColumnwiseTransformer has no attribute inverse_transform")
  let _ ← check_is_fitted ct.is_fitted
  let z ← check_series Z
  let (z, is_series) := _check_is_pdseries z
  let _ ← _check_columns z ct.columns_
  let z ← applyColumnsInv ct.transformers_ X ct.columns_ z
  if is_series then
    return (match z.squeezeColumns with
      | .inl s => .ser s
      | .inr d => .df d)
  else return .df z

/-! ## Featureizer -/

/-- An object passed as the `transformer` or `imputer` parameter of a
`Featureizer`: `isS2S` models the `isinstance(_, _SeriesToSeriesTransformer)`
check, and `fitF` the behaviour of fitting it on a univariate series,
yielding the fitted series-to-series transform map. -/
structure S2SCandidate where
  isS2S : Bool
  fitF : PSeries → (PSeries → PSeries)

/-- Modelled from the spec: `sktime.transformations.series.impute.Imputer`
(not under `src/`), the default imputer — a series-to-series transformer
whose fitted transform replaces missing values; only its membership in
`_SeriesToSeriesTransformer` matters for the claims, and its transform is
modelled as filling `np.nan` with 0. -/
def Imputer : S2SCandidate :=
  ⟨true, fun _ => fun s => { s with values := s.values.map fun v => some (v.getD 0) }⟩

/-- Constructor parameters of a `Featureizer`. -/
structure Featureizer where
  transformer : S2SCandidate
  shift : Nat
  suffix : String
  imputer : Option S2SCandidate

/-- A fitted `Featureizer`: the parameters plus the attributes `_y`,
`transformer_`, `imputer_` and `_is_fitted` set by `_fit`.  The fitted
transformers are carried as their transform maps. -/
structure FeatureizerFitted where
  params : Featureizer
  y : PSeries
  transformer_ : PSeries → PSeries
  imputer_ : PSeries → PSeries
  is_fitted : Bool

/-- Validation of the `y` argument: `check_series(y, enforce_univariate=True)`
applied to an optional argument defaulting to `None`; `None` is not a valid
series. -/
def check_series_univariate_opt (y : Option SeriesInput) : Except PyError PSeries :=
  match y with
  | some yv => check_series_univariate yv
  | none => .error (.valueError "y must be a univariate series")

/-- `Featureizer._fit`: validates that `X` is multivariate and `y` univariate,
stores a copy of `y`, type-checks the given transformer and imputer against
`_SeriesToSeriesTransformer` (the default `Imputer()` when none is given),
fits a clone of the transformer on `y`, and fits the imputer on the
transformed `y`. -/
def Featureizer._fit (f : Featureizer) (X : SeriesInput) (y : Option SeriesInput) :
    Except PyError FeatureizerFitted := do
  let _ ← check_series_multivariate X
  let yS ← check_series_univariate_opt y
  if ¬ f.transformer.isS2S then
    throw (.typeError "Given transformer must be a _SeriesToSeriesTransformer")
  let imputerObj := match f.imputer with
    | none => Imputer
    | some im => im
  if ¬ imputerObj.isS2S then
    throw (.typeError "imputer must be a _SeriesToSeriesTransformer")
  let tf := f.transformer.fitF yS
  let impf := imputerObj.fitF (tf yS)
  return ⟨f, yS, tf, impf, true⟩

/-- The in-sample shifted target of `Featureizer._transform`:
`y_t = _y.copy()`, then `y_t.iloc[shift:] = y.iloc[:-shift]` and
`y_t.iloc[:shift] = np.nan`, modelled positionally: the first `shift`
positions become missing and the remainder take the leading values of `y`. -/
def shiftedTarget (yStored yNew : PSeries) (shift : Nat) : PSeries :=
  ⟨yStored.name, yStored.index,
    List.replicate (min shift yStored.values.length) none ++
      (yNew.values.take (yNew.values.length - shift)).take (yStored.values.length - shift)⟩

/-- The out-of-sample target of `Featureizer._transform`:
`_y.iloc[-shift:]`, the last `shift` entries of the stored target. -/
def lastEntries (s : PSeries) (shift : Nat) : PSeries :=
  ⟨s.name, s.index.drop (s.index.length - shift), s.values.drop (s.values.length - shift)⟩

/-- `Featureizer._transform`: checks the fitted state, validates `X` and `y`,
copies `X`, builds the shifted target (in-sample when `X` has the stored
target's index; otherwise requires `len(X) == shift` — raising a `ValueError`
when not — and uses the stored target's tail), appends the featureized column
named from the target name and the suffix, and imputes it. -/
def Featureizer._transform (st : FeatureizerFitted) (X : SeriesInput)
    (y : Option SeriesInput) : Except PyError PDataFrame := do
  let _ ← check_is_fitted st.is_fitted
  let Xd ← check_series_multivariate X
  let yS ← check_series_univariate_opt y
  let Xt := Xd
  let y_t ←
    if Xd.index = st.y.index then
      pure (shiftedTarget st.y yS st.params.shift)
    else if Xd.index.length ≠ st.params.shift then
      throw (.valueError "Given lenght of X must be equal to shift value.")
    else
      pure (lastEntries st.y st.params.shift)
  let col := match st.y.name with
    | some n => if n = "" then st.params.suffix else n ++ "_" ++ st.params.suffix
    | none => st.params.suffix
  let Xt := Xt.setColValues col (st.transformer_ y_t).values
  let Xt := Xt.setColValues col (st.imputer_ (Xt.getCol col)).values
  return Xt

/-! ## Concrete fixtures used by witnesses and counterexamples -/

/-- A fitted wrapped transformer acting as the identity. -/
def idSeriesMap : FittedTransformer :=
  ⟨fun z _ => z, fun z _ => z⟩

/-- A wrapped identity transformer exposing `inverse_transform`. -/
def idWrapped : Transformer :=
  ⟨true, fun _ _ => idSeriesMap⟩

/-- A wrapped identity transformer that does not expose `inverse_transform`. -/
def noInvWrapped : Transformer :=
  ⟨false, fun _ _ => idSeriesMap⟩

/-- A fitted wrapped transformer replacing every value of a series by 0. -/
def zeroSeriesMap : FittedTransformer :=
  ⟨fun z _ => match z with
    | .ser s => .ser { s with values := s.values.map fun _ => some 0 }
    | .df d => .df d,
   fun z _ => z⟩

/-- A wrapped zeroing transformer. -/
def zeroWrapped : Transformer :=
  ⟨true, fun _ _ => zeroSeriesMap⟩

/-- A univariate fixture series. -/
def serFix : PSeries :=
  ⟨some "y", [0, 1], [some 1, some 2]⟩

/-- A two-column fixture frame. -/
def dfFix : PDataFrame :=
  ⟨[0, 1], [("a", [some 1, some 2]), ("b", [some 3, some 4])]⟩

/-- The fixture frame after zeroing column `a`. -/
def dfZeroFix : PDataFrame :=
  ⟨[0, 1], [("a", [some 0, some 0]), ("b", [some 3, some 4])]⟩

/-- A fitted `ColumnwiseTransformer` zeroing column `a` of the fixture frame. -/
def cwZeroFix : ColumnwiseTransformer :=
  ⟨zeroWrapped, some ["a"], ["a"], [("a", zeroSeriesMap)], true⟩

/-- The state produced by fitting a columns-`None` `ColumnwiseTransformer` of
the identity transformer on the fixture frame. -/
def cwFitResFix : ColumnwiseTransformer :=
  ⟨idWrapped, none, ["a", "b"],
    [("a", idWrapped.fitF (.ser (dfFix.getCol "a")) none),
     ("b", idWrapped.fitF (.ser (dfFix.getCol "b")) none)], true⟩

/-- An object failing the `_SeriesToSeriesTransformer` isinstance check. -/
def notS2S : S2SCandidate :=
  ⟨false, fun _ => id⟩

/-- A series-to-series transformer candidate passing the isinstance check. -/
def isS2SId : S2SCandidate :=
  ⟨true, fun _ => id⟩

/-- A fitted `Featureizer` fixture with shift 2 over the fixture target. -/
def featFittedFix : FeatureizerFitted :=
  ⟨⟨isS2SId, 2, "featureized", none⟩, serFix, id, id, true⟩

/-- A one-row fixture frame whose index differs from the fixture target's. -/
def dfShortFix : PDataFrame :=
  ⟨[5], [("a", [some 1])]⟩

/-- A non-composite univariate-only classifier raising the expected error. -/
def univariateRaisingClassifier : ClassifierInstance :=
  ⟨false, false, false, false, .raises (.valueError "X is a multivariate series")⟩

/-- A composite univariate-only classifier emitting the expected warning. -/
def compositeWarningClassifier : ClassifierInstance :=
  ⟨false, true, false, false, .warnsUser "X is a multivariate series"⟩

/-- A classifier instance without the train-estimate capability. -/
def estPlainFix : ClassifierInstance :=
  ⟨true, false, false, false, .normal⟩

/-- A two-class scenario with one predict instance. -/
def scenarioFix : ClassificationScenario :=
  ⟨2, 1, [0, 1]⟩

/-- A run output passing all the output checks on `scenarioFix`. -/
def runFix : ClassifierRun :=
  ⟨[0], [[1, 0]], []⟩

/-- A one-entry frozen expected-output table. -/
def unitTestProbaFix : List (String × List (List ℚ)) :=
  [("TestClassifier", [[1, 0]])]

/-- A classifier class with an entry in `unitTestProbaFix` whose probas
reproduce the frozen values. -/
def clsInTableFix : ClassifierClass :=
  ⟨"TestClassifier", true, fun _ => [[1, 0]]⟩

/-- A classifier class without an entry in `unitTestProbaFix`. -/
def clsNotInTableFix : ClassifierClass :=
  ⟨"OtherClassifier", false, fun _ => [[1, 0]]⟩

/-! ## Helper lemmas -/

theorem check_columns_ok_iff (z : PDataFrame) (sel : List String) :
    _check_columns z sel = .ok () ↔ ∀ c ∈ sel, c ∈ z.columns := by
  unfold _check_columns
  by_cases h : (sel.filter fun c => decide (c ∉ z.columns)).isEmpty
  · simp only [h, if_true]
    simp only [List.isEmpty_iff, List.filter_eq_nil_iff] at h
    constructor
    · intro _ c hc
      have := h c hc
      simpa using this
    · intro _
      trivial
  · simp only [h, if_false]
    simp only [List.isEmpty_iff, List.filter_eq_nil_iff] at h
    constructor
    · intro hcontra
      cases hcontra
    · intro hall
      exact absurd (fun c hc => by simpa using hall c hc) h

theorem check_columns_error_of_missing (z : PDataFrame) (sel : List String) (c : String)
    (hc : c ∈ sel) (hm : c ∉ z.columns) :
    ∃ m, _check_columns z sel = .error (.valueError m) := by
  unfold _check_columns
  by_cases h : (sel.filter fun cc => decide (cc ∉ z.columns)).isEmpty
  · simp only [List.isEmpty_iff, List.filter_eq_nil_iff] at h
    exact absurd hm (by simpa using h c hc)
  · simp only [h, if_false]
    exact ⟨_, rfl⟩

theorem assocLookup_map_self {α : Type} (g : String → α) (l : List String) (c : String) :
    assocLookup (l.map fun k => (k, g k)) c = if c ∈ l then some (g c) else none := by
  induction l with
  | nil => simp [assocLookup]
  | cons k rest ih =>
    simp only [List.map_cons, assocLookup]
    by_cases h : k = c
    · subst h
      simp
    · rw [if_neg h, ih]
      have h' : (c ∈ k :: rest) = (c ∈ rest) := by
        simp only [List.mem_cons, eq_iff_iff]
        constructor
        · rintro (rfl | hr)
          · exact absurd rfl h
          · exact hr
        · exact Or.inr
      simp only [h']

theorem assocSet_keys_of_mem {α : Type} (l : List (String × α)) (k : String) (v : α)
    (h : k ∈ l.map Prod.fst) : (assocSet l k v).map Prod.fst = l.map Prod.fst := by
  induction l with
  | nil => simp at h
  | cons p rest ih =>
    cases p with
    | mk k' w =>
      simp only [List.map_cons, List.mem_cons] at h
      by_cases hk : k' = k
      · subst hk
        simp [assocSet]
      · simp only [assocSet, if_neg hk, List.map_cons, List.cons.injEq, true_and]
        rcases h with h | h
        · exact absurd h.symm hk
        · exact ih h

theorem assocLookup_assocSet_ne {α : Type} (l : List (String × α)) (k c : String) (v : α)
    (h : c ≠ k) : assocLookup (assocSet l k v) c = assocLookup l c := by
  have hk : ¬ k = c := fun hh => h hh.symm
  induction l with
  | nil => simp [assocSet, assocLookup, hk]
  | cons p rest ih =>
    cases p with
    | mk k' w =>
      by_cases hkk : k' = k
      · subst hkk
        simp [assocSet, assocLookup, hk]
      · simp only [assocSet, if_neg hkk, assocLookup]
        by_cases hc : k' = c <;> simp [hc, ih]

theorem applyOneColumn_ok_spec (trs : List (String × FittedTransformer))
    (X : Option PDataFrame) (colname : String) (z z' : PDataFrame)
    (hmem : colname ∈ z.columns)
    (h : applyOneColumn trs X colname z = .ok z') :
    z'.index = z.index ∧ z'.columns = z.columns ∧
      ∀ c, c ≠ colname → assocLookup z'.cols c = assocLookup z.cols c := by
  unfold applyOneColumn at h
  split at h
  next => cases h
  next ft hl =>
    split at h
    next => cases h
    next s hs =>
      cases h
      refine ⟨rfl, assocSet_keys_of_mem z.cols colname _ hmem, ?_⟩
      intro c hne
      exact assocLookup_assocSet_ne z.cols colname c _ hne

theorem applyOneColumn_not_notFitted (trs : List (String × FittedTransformer))
    (X : Option PDataFrame) (colname : String) (z : PDataFrame) :
    raisedNotFitted (applyOneColumn trs X colname z) = false := by
  unfold applyOneColumn
  split
  · rfl
  · split
    · rfl
    · rfl

theorem applyOneColumnInv_not_notFitted (trs : List (String × FittedTransformer))
    (X : Option PDataFrame) (colname : String) (z : PDataFrame) :
    raisedNotFitted (applyOneColumnInv trs X colname z) = false := by
  unfold applyOneColumnInv
  split
  · rfl
  · split
    · rfl
    · rfl

theorem applyColumns_no_notFitted (trs : List (String × FittedTransformer))
    (X : Option PDataFrame) :
    ∀ (cols : List String) (z : PDataFrame),
      raisedNotFitted (applyColumns trs X cols z) = false := by
  intro cols
  induction cols with
  | nil => intro z; rfl
  | cons colname rest ih =>
    intro z
    unfold applyColumns
    cases hstep : applyOneColumn trs X colname z with
    | ok z' => exact ih z'
    | error e =>
      have hone := applyOneColumn_not_notFitted trs X colname z
      rw [hstep] at hone
      exact hone

theorem applyColumnsInv_no_notFitted (trs : List (String × FittedTransformer))
    (X : Option PDataFrame) :
    ∀ (cols : List String) (z : PDataFrame),
      raisedNotFitted (applyColumnsInv trs X cols z) = false := by
  intro cols
  induction cols with
  | nil => intro z; rfl
  | cons colname rest ih =>
    intro z
    unfold applyColumnsInv
    cases hstep : applyOneColumnInv trs X colname z with
    | ok z' => exact ih z'
    | error e =>
      have hone := applyOneColumnInv_not_notFitted trs X colname z
      rw [hstep] at hone
      exact hone

theorem applyColumns_ok_spec (trs : List (String × FittedTransformer))
    (X : Option PDataFrame) :
    ∀ (cols : List String) (z out : PDataFrame),
      (∀ c ∈ cols, c ∈ z.columns) →
      applyColumns trs X cols z = .ok out →
      out.index = z.index ∧ out.columns = z.columns ∧
        ∀ c, c ∉ cols → assocLookup out.cols c = assocLookup z.cols c := by
  intro cols
  induction cols with
  | nil =>
    intro z out _ h
    cases h
    exact ⟨rfl, rfl, fun _ _ => rfl⟩
  | cons colname rest ih =>
    intro z out hmem h
    unfold applyColumns at h
    cases hstep : applyOneColumn trs X colname z with
    | error e => rw [hstep] at h; cases h
    | ok z' =>
      rw [hstep] at h
      have hcolmem : colname ∈ z.columns := hmem colname (List.mem_cons_self _ _)
      obtain ⟨hi, hc, hv⟩ := applyOneColumn_ok_spec trs X colname z z' hcolmem hstep
      have hrest : ∀ c ∈ rest, c ∈ z'.columns := by
        intro c hcm
        rw [hc]
        exact hmem c (List.mem_cons_of_mem _ hcm)
      obtain ⟨h1, h2, h3⟩ := ih z' out hrest h
      refine ⟨h1.trans hi, h2.trans hc, ?_⟩
      intro c hcm
      have hne : c ≠ colname := fun hh => hcm (hh ▸ List.mem_cons_self _ _)
      have hnr : c ∉ rest := fun hh => hcm (List.mem_cons_of_mem _ hh)
      rw [h3 c hnr]
      exact hv c hne

theorem check_columns_cases (z : PDataFrame) (sel : List String) :
    _check_columns z sel = .ok () ∨ ∃ m, _check_columns z sel = .error (.valueError m) := by
  by_cases h : (sel.filter fun c => decide (c ∉ z.columns)).isEmpty
  · left
    unfold _check_columns
    simp only [h, if_true]
  · right
    refine ⟨"Missing columns" ++ String.intercalate ", "
        (sel.filter fun c => decide (c ∉ z.columns)) ++ "in Z.", ?_⟩
    unfold _check_columns
    simp only [h, if_false]
    rfl

theorem raisedNotFitted_error (a b : Type) (e : PyError) :
    raisedNotFitted (Except.error e : Except PyError a) =
      raisedNotFitted (Except.error e : Except PyError b) := by
  cases e <;> rfl

theorem columnwise_fit_ok (ct : ColumnwiseTransformer) (Z : SeriesInput)
    (X : Option PDataFrame) (st' : ColumnwiseTransformer)
    (h : ct.fit Z X = .ok st') :
    _check_columns Z.toFrame
        (match ct.columns with | some cs => cs | none => Z.toFrame.columns) = .ok ()
    ∧ st' = { ct with
        columns_ := match ct.columns with | some cs => cs | none => Z.toFrame.columns,
        transformers_ :=
          (match ct.columns with | some cs => cs | none => Z.toFrame.columns).map
            fun colname => (colname, ct.transformer.fitF (.ser (Z.toFrame.getCol colname)) X),
        is_fitted := true }
    := by
  unfold ColumnwiseTransformer.fit at h
  simp only [check_series, Bind.bind, Except.bind] at h
  split at h
  any_goals cases h
  rename_i e hc
  cases e
  exact ⟨hc, rfl⟩

theorem columnwise_transform_no_notFitted (ct : ColumnwiseTransformer)
    (Z2 : SeriesInput) (X2 : Option PDataFrame) (hf : ct.is_fitted = true) :
    raisedNotFitted (ct.transform Z2 X2) = false := by
  unfold ColumnwiseTransformer.transform
  simp only [check_is_fitted, hf, if_true, check_series, Bind.bind, Except.bind]
  rcases hzp : _check_is_pdseries Z2 with ⟨zf, fl⟩
  dsimp only
  rcases check_columns_cases zf ct.columns_ with hc | ⟨m, hc⟩
  · rw [hc]
    dsimp only
    cases ha : applyColumns ct.transformers_ X2 ct.columns_ zf with
    | ok z'' => cases fl <;> rfl
    | error e =>
      have hl := applyColumns_no_notFitted ct.transformers_ X2 ct.columns_ zf
      rw [ha] at hl
      dsimp only
      rw [raisedNotFitted_error SeriesInput PDataFrame e]
      exact hl
  · rw [hc]
    rfl

theorem columnwise_invtransform_no_notFitted (ct : ColumnwiseTransformer)
    (Z2 : SeriesInput) (X2 : Option PDataFrame) (hf : ct.is_fitted = true)
    (hinv : ct.transformer.hasInvTransform = true) :
    raisedNotFitted (ct.inverse_transform Z2 X2) = false := by
  unfold ColumnwiseTransformer.inverse_transform
  simp only [hinv, not_true, Bind.bind, Except.bind, check_is_fitted, hf, if_true,
    check_series, if_false, ite_false]
  rcases hzp : _check_is_pdseries Z2 with ⟨zf, fl⟩
  dsimp only
  rcases check_columns_cases zf ct.columns_ with hc | ⟨m, hc⟩
  · rw [hc]
    dsimp only
    cases ha : applyColumnsInv ct.transformers_ X2 ct.columns_ zf with
    | ok z'' => cases fl <;> rfl
    | error e =>
      have hl := applyColumnsInv_no_notFitted ct.transformers_ X2 ct.columns_ zf
      rw [ha] at hl
      dsimp only [pure, Except.pure]
      rw [raisedNotFitted_error SeriesInput PDataFrame e]
      exact hl
  · rw [hc]
    rfl

theorem map_fst_pairs {a : Type} (g : String → a) (l : List String) :
    (l.map fun k => (k, g k)).map Prod.fst = l := by
  induction l with
  | nil => rfl
  | cons k rest ih => simp [ih]

theorem runFix_passes : test_classifier_output estPlainFix scenarioFix runFix = .passed := by
  have h4 : ¬ ¬ (runFix.yProba.all (fun row => npAlmostEqual row.sum 1 4) = true) := by
    norm_num [runFix, npAlmostEqual]
  unfold test_classifier_output
  rw [if_neg (by decide), if_neg (by decide), if_neg (by decide), if_neg h4,
    if_neg (by decide)]

theorem clsInTable_assert :
    assertArrayAlmostEqual (clsInTableFix.probaOnUnitTest clsInTableFix.hasRandomState)
      [[1, 0]] 2 = true := by
  norm_num [clsInTableFix, assertArrayAlmostEqual, npAlmostEqual]

/-! ## Claim theorems -/

/-- Claim C1 counterexample: a composite univariate-only classifier that
emits a `UserWarning` matching `"multivariate series"` passes the test, lacks
the `capability:multivariate` tag, yet raises no exception at all — the
harness expects a warning, not an exception, from composites. -/
theorem claimC1_counterexample :
    test_multivariate_input_exception compositeWarningClassifier = .passed
    ∧ compositeWarningClassifier.capabilityMultivariate = false
    ∧ raisesExceptionMatching compositeWarningClassifier.fitMultivariate
        "multivariate series" = false := by
  refine ⟨by decide, rfl, rfl⟩

/-- Claim C1, amended: for every classifier under test without the
`capability:multivariate` tag, running `fit` on the multivariate scenario
raises a `ValueError` matching `"multivariate series"` when the estimator is
not composite; composite estimators instead emit a `UserWarning` matching
`"multivariate series"`. -/
theorem claimC1 (est : ClassifierInstance)
    (hp : test_multivariate_input_exception est = .passed)
    (hcap : est.capabilityMultivariate = false) :
    (est.isComposite = false →
      raisesValueErrorMatching est.fitMultivariate "multivariate series" = true)
    ∧ (est.isComposite = true →
      warnsUserWarningMatching est.fitMultivariate "multivariate series" = true) := by
  unfold test_multivariate_input_exception at hp
  split at hp
  next hcapT => rw [hcap] at hcapT; cases hcapT
  next hcapF =>
    split at hp
    next hcompT =>
      split at hp
      next hw =>
        refine ⟨fun hc => ?_, fun _ => hw⟩
        rw [hc] at hcompT
        cases hcompT
      next hw => cases hp
    next hcompF =>
      split at hp
      next hw =>
        refine ⟨fun _ => hw, fun hc => ?_⟩
        exact absurd hc hcompF
      next hw => cases hp

/-- Claim C1 witness: a concrete non-composite univariate-only classifier
passing the test indeed raised a matching `ValueError`. -/
theorem claimC1_witness :
    test_multivariate_input_exception univariateRaisingClassifier = .passed
    ∧ raisesValueErrorMatching univariateRaisingClassifier.fitMultivariate
        "multivariate series" = true :=
  ⟨by decide,
   (claimC1 univariateRaisingClassifier (by decide) rfl).1 rfl⟩

/-- Claim C2: whenever `test_classifier_output` passes, every row of the
`predict_proba` output sums to 1 to 4 decimal places (numpy
`assert_almost_equal` tolerance). -/
theorem claimC2 (est : ClassifierInstance) (sc : ClassificationScenario)
    (run : ClassifierRun)
    (hp : test_classifier_output est sc run = .passed) :
    ∀ row ∈ run.yProba, npAlmostEqual row.sum 1 4 = true := by
  unfold test_classifier_output at hp
  split at hp
  next => cases hp
  next h1 =>
    split at hp
    next => cases hp
    next h2 =>
      split at hp
      next => cases hp
      next h3 =>
        split at hp
        next => cases hp
        next h4 =>
          have hall : run.yProba.all (fun row => npAlmostEqual row.sum 1 4) = true :=
            not_not.mp h4
          intro row hrow
          exact List.all_eq_true.mp hall row hrow

/-- Claim C2 witness: a concrete passing run whose probability row sums to 1
within tolerance. -/
theorem claimC2_witness :
    test_classifier_output estPlainFix scenarioFix runFix = .passed
    ∧ npAlmostEqual ([1, 0] : List ℚ).sum 1 4 = true :=
  ⟨runFix_passes,
   claimC2 estPlainFix scenarioFix runFix runFix_passes [1, 0] (by simp [runFix])⟩

/-- Claim C3: whenever `test_classifier_output` passes, every predicted label
occurs among the training labels. -/
theorem claimC3 (est : ClassifierInstance) (sc : ClassificationScenario)
    (run : ClassifierRun)
    (hp : test_classifier_output est sc run = .passed) :
    ∀ v ∈ run.yPred, v ∈ sc.yTrain := by
  unfold test_classifier_output at hp
  split at hp
  next => cases hp
  next h1 =>
    split at hp
    next => cases hp
    next h2 =>
      have hall : npAllIsin (npUnique run.yPred) (npUnique sc.yTrain) = true :=
        not_not.mp h2
      unfold npAllIsin npUnique at hall
      intro v hv
      have hvd : v ∈ run.yPred.dedup := List.mem_dedup.mpr hv
      have := List.all_eq_true.mp hall v hvd
      exact List.mem_dedup.mp (of_decide_eq_true this)

/-- Claim C3 witness: a concrete passing run whose predicted label occurs in
the training labels. -/
theorem claimC3_witness :
    test_classifier_output estPlainFix scenarioFix runFix = .passed
    ∧ (0 : Int) ∈ scenarioFix.yTrain :=
  ⟨runFix_passes,
   claimC3 estPlainFix scenarioFix runFix runFix_passes 0 (by simp [runFix])⟩

/-- Claim C4: whenever `test_classifier_output` passes, `predict` has shape
`(n_instances,)` and `predict_proba` has shape `(n_instances, n_classes)`. -/
theorem claimC4 (est : ClassifierInstance) (sc : ClassificationScenario)
    (run : ClassifierRun)
    (hp : test_classifier_output est sc run = .passed) :
    run.yPred.length = sc.nInstancesNew
    ∧ run.yProba.length = sc.nInstancesNew
    ∧ ∀ row ∈ run.yProba, row.length = sc.nClasses := by
  unfold test_classifier_output at hp
  split at hp
  next => cases hp
  next h1 =>
    split at hp
    next => cases hp
    next h2 =>
      split at hp
      next => cases hp
      next h3 =>
        have hshape : matrixHasShape run.yProba sc.nInstancesNew sc.nClasses = true :=
          not_not.mp h3
        unfold matrixHasShape at hshape
        rw [Bool.and_eq_true] at hshape
        obtain ⟨hlen, hrows⟩ := hshape
        refine ⟨not_ne_iff.mp h1, of_decide_eq_true hlen, ?_⟩
        intro row hrow
        exact of_decide_eq_true (List.all_eq_true.mp hrows row hrow)

/-- Claim C4 witness: concrete shapes of a passing run. -/
theorem claimC4_witness :
    runFix.yPred.length = scenarioFix.nInstancesNew
    ∧ runFix.yProba.length = scenarioFix.nInstancesNew
    ∧ ([1, 0] : List ℚ).length = scenarioFix.nClasses :=
  ⟨(claimC4 estPlainFix scenarioFix runFix runFix_passes).1,
   (claimC4 estPlainFix scenarioFix runFix runFix_passes).2.1,
   (claimC4 estPlainFix scenarioFix runFix runFix_passes).2.2 [1, 0] (by simp [runFix])⟩

/-- Claim C5: for every frozen expected-output table and classifier class,
`test_classifier_on_unit_test_data` skips classes without a table entry, and
for classes with an entry it passes exactly when the `predict_proba` output
of the seed-0 run reproduces the frozen values to 2 decimal places. -/
theorem claimC5 (tbl : List (String × List (List ℚ))) (cls : ClassifierClass) :
    (assocLookup tbl cls.name = none →
      test_classifier_on_unit_test_data tbl cls = .skipped)
    ∧ ∀ expected, assocLookup tbl cls.name = some expected →
        (test_classifier_on_unit_test_data tbl cls = .passed ↔
          assertArrayAlmostEqual (cls.probaOnUnitTest cls.hasRandomState) expected 2
            = true) := by
  constructor
  · intro hnone
    unfold test_classifier_on_unit_test_data
    rw [hnone]
  · intro expected hsome
    unfold test_classifier_on_unit_test_data
    rw [hsome]
    dsimp only
    split
    next hq => exact iff_of_true rfl hq
    next hq => exact iff_of_false (by decide) hq

/-- Claim C5 witness: a class missing from the table is skipped, and a class
present in the table whose probas reproduce the frozen values passes. -/
theorem claimC5_witness :
    test_classifier_on_unit_test_data unitTestProbaFix clsNotInTableFix = .skipped
    ∧ test_classifier_on_unit_test_data unitTestProbaFix clsInTableFix = .passed :=
  ⟨(claimC5 unitTestProbaFix clsNotInTableFix).1 rfl,
   ((claimC5 unitTestProbaFix clsInTableFix).2 [[1, 0]] rfl).mpr clsInTable_assert⟩

/-- Claim C6: validation failures in the composite transformers are standard
`ValueError`/`TypeError` exceptions: `_check_columns` raises a `ValueError`
when a selected column is missing; `Featureizer._fit` raises a `TypeError`
when the transformer or the given imputer is not a series-to-series
transformer; `Featureizer._transform` raises a `ValueError` when the input
index differs from the fitted target index and the input length does not
equal the shift value. -/
theorem claimC6 :
    (∀ (z : PDataFrame) (sel : List String) (c : String), c ∈ sel → c ∉ z.columns →
      ∃ m, _check_columns z sel = .error (.valueError m))
    ∧ (∀ (f : Featureizer) (X : PDataFrame) (y : PSeries), f.transformer.isS2S = false →
      ∃ m, Featureizer._fit f (.df X) (some (.ser y)) = .error (.typeError m))
    ∧ (∀ (f : Featureizer) (X : PDataFrame) (y : PSeries) (im : S2SCandidate),
        f.transformer.isS2S = true → f.imputer = some im → im.isS2S = false →
      ∃ m, Featureizer._fit f (.df X) (some (.ser y)) = .error (.typeError m))
    ∧ (∀ (st : FeatureizerFitted) (X : PDataFrame) (y : PSeries),
        st.is_fitted = true → X.index ≠ st.y.index → X.index.length ≠ st.params.shift →
      Featureizer._transform st (.df X) (some (.ser y)) =
        .error (.valueError "Given lenght of X must be equal to shift value.")) := by
  refine ⟨check_columns_error_of_missing, ?_, ?_, ?_⟩
  · intro f X y htr
    obtain ⟨⟨b, fitF⟩, sh, suf, imp⟩ := f
    cases htr
    exact ⟨_, rfl⟩
  · intro f X y im htr himp hbad
    obtain ⟨⟨b, fitF⟩, sh, suf, imp⟩ := f
    cases htr
    cases himp
    obtain ⟨bi, fitFi⟩ := im
    cases hbad
    exact ⟨_, rfl⟩
  · intro st X y hf hidx hlen
    obtain ⟨params, yS, tf, impf, bf⟩ := st
    cases hf
    unfold Featureizer._transform
    simp only [check_is_fitted, check_series_multivariate, check_series_univariate_opt,
      check_series_univariate, Bind.bind, Except.bind]
    dsimp only at hidx hlen ⊢
    rw [if_neg hidx, if_pos hlen]

/-- Claim C6 witness: concrete instances of the four validation errors. -/
theorem claimC6_witness :
    (∃ m, _check_columns dfFix ["c"] = .error (.valueError m))
    ∧ (∃ m, Featureizer._fit ⟨notS2S, 2, "featureized", none⟩ (.df dfFix)
        (some (.ser serFix)) = .error (.typeError m))
    ∧ (∃ m, Featureizer._fit ⟨isS2SId, 2, "featureized", some notS2S⟩ (.df dfFix)
        (some (.ser serFix)) = .error (.typeError m))
    ∧ Featureizer._transform featFittedFix (.df dfShortFix) (some (.ser serFix)) =
        .error (.valueError "Given lenght of X must be equal to shift value.") :=
  ⟨claimC6.1 dfFix ["c"] "c" (by decide) (by decide),
   claimC6.2.1 ⟨notS2S, 2, "featureized", none⟩ dfFix serFix rfl,
   claimC6.2.2.1 ⟨isS2SId, 2, "featureized", some notS2S⟩ dfFix serFix notS2S rfl rfl rfl,
   claimC6.2.2.2 featFittedFix dfShortFix serFix rfl (by decide) (by decide)⟩

/-- Claim C7: `fit` of `OptionalPassthrough` returns the object with its
parameters intact and marks it fitted; `transform` and `inverse_transform`
before fit raise a `NotFittedError` through the fitted-state check and after
fit never do; `ColumnwiseTransformer` behaves the same, its `fit` returning
the object with parameters intact when it succeeds. -/
theorem claimC7 (t : Transformer) (p : Bool) (cols : Option (List String))
    (Z Z2 : SeriesInput) (X X2 : Option PDataFrame) :
    (((OptionalPassthrough.init t p).fit Z X).is_fitted = true
      ∧ ((OptionalPassthrough.init t p).fit Z X).transformer = t
      ∧ ((OptionalPassthrough.init t p).fit Z X).passthrough = p)
    ∧ raisedNotFitted ((OptionalPassthrough.init t p).transform Z2 X2) = true
    ∧ (t.hasInvTransform = true →
        raisedNotFitted ((OptionalPassthrough.init t p).inverse_transform Z2 X2) = true)
    ∧ raisedNotFitted (((OptionalPassthrough.init t p).fit Z X).transform Z2 X2) = false
    ∧ (t.hasInvTransform = true →
        raisedNotFitted
          (((OptionalPassthrough.init t p).fit Z X).inverse_transform Z2 X2) = false)
    ∧ raisedNotFitted ((ColumnwiseTransformer.init t cols).transform Z2 X2) = true
    ∧ (t.hasInvTransform = true →
        raisedNotFitted
          ((ColumnwiseTransformer.init t cols).inverse_transform Z2 X2) = true)
    ∧ ∀ st', (ColumnwiseTransformer.init t cols).fit Z X = .ok st' →
        (st'.is_fitted = true ∧ st'.transformer = t ∧ st'.columns = cols
          ∧ raisedNotFitted (st'.transform Z2 X2) = false) := by
  refine ⟨⟨?_, ?_, ?_⟩, ?_, ?_, ?_, ?_, ?_, ?_, ?_⟩
  · cases p <;> rfl
  · cases p <;> rfl
  · cases p <;> rfl
  · rfl
  · intro hi
    unfold OptionalPassthrough.inverse_transform OptionalPassthrough.init
    rw [if_neg (not_not_intro hi)]
    rfl
  · cases p <;> rfl
  · intro hi
    cases p with
    | true =>
      have hfit : (OptionalPassthrough.init t true).fit Z X = ⟨t, none, true, true⟩ := rfl
      rw [hfit]
      unfold OptionalPassthrough.inverse_transform
      rw [if_neg (not_not_intro hi)]
      rfl
    | false =>
      have hfit : (OptionalPassthrough.init t false).fit Z X
          = ⟨t, some (t.fitF Z X), false, true⟩ := rfl
      rw [hfit]
      unfold OptionalPassthrough.inverse_transform
      rw [if_neg (not_not_intro hi)]
      rfl
  · rfl
  · intro hi
    unfold ColumnwiseTransformer.inverse_transform ColumnwiseTransformer.init
    rw [if_neg (not_not_intro hi)]
    rfl
  · intro st' hfit
    obtain ⟨hc, hrec⟩ := columnwise_fit_ok _ _ _ _ hfit
    subst hrec
    exact ⟨rfl, rfl, rfl, columnwise_transform_no_notFitted _ Z2 X2 rfl⟩

/-- Claim C7 witness: concrete fitted-state behaviour of both composite
transformers. -/
theorem claimC7_witness :
    ((OptionalPassthrough.init idWrapped false).fit (.df dfFix) none).is_fitted = true
    ∧ raisedNotFitted
        ((OptionalPassthrough.init idWrapped false).inverse_transform (.ser serFix) none)
        = true
    ∧ raisedNotFitted
        (((OptionalPassthrough.init idWrapped false).fit (.df dfFix) none).inverse_transform
          (.ser serFix) none) = false
    ∧ cwFitResFix.is_fitted = true
    ∧ raisedNotFitted (cwFitResFix.transform (.ser serFix) none) = false := by
  obtain ⟨⟨a1, a2, a3⟩, b, c, d, e, f, g, h⟩ :=
    claimC7 idWrapped false none (.df dfFix) (.ser serFix) none none
  exact ⟨a1, c rfl, e rfl, (h cwFitResFix rfl).1, (h cwFitResFix rfl).2.2.2⟩

/-- Claim C8 counterexample: an `OptionalPassthrough` with `passthrough=True`
wrapping a transformer without an `inverse_transform` method: after fit,
`inverse_transform` raises an `AttributeError` (the `if_delegate_has_method`
guard) instead of returning the series. -/
theorem claimC8_counterexample :
    ((OptionalPassthrough.init noInvWrapped true).fit (.ser serFix) none).inverse_transform
        (.ser serFix) none
      = .error (.attributeError "This OptionalPassthrough has no attribute inverse_transform")
    ∧ ((OptionalPassthrough.init noInvWrapped true).fit (.ser serFix) none).inverse_transform
        (.ser serFix) none
      ≠ .ok (.ser serFix) := by
  refine ⟨rfl, ?_⟩
  intro hcon
  rw [show ((OptionalPassthrough.init noInvWrapped true).fit (.ser serFix) none).inverse_transform
      (.ser serFix) none
    = Except.error (.attributeError
        "This OptionalPassthrough has no attribute inverse_transform") from rfl] at hcon
  cases hcon

/-- Claim C8, amended: for every `OptionalPassthrough` with `passthrough=True`,
after fit `transform` returns its input unchanged, `inverse_transform` returns
its input unchanged provided the wrapped transformer exposes an
`inverse_transform` method, and fit never clones or fits the wrapped
transformer (`transformer_` stays `None`). -/
theorem claimC8 (t : Transformer) (Z Z2 : SeriesInput) (X X2 : Option PDataFrame) :
    ((OptionalPassthrough.init t true).fit Z X).transformer_ = none
    ∧ ((OptionalPassthrough.init t true).fit Z X).transform Z2 X2 = .ok Z2
    ∧ (t.hasInvTransform = true →
        ((OptionalPassthrough.init t true).fit Z X).inverse_transform Z2 X2 = .ok Z2) := by
  refine ⟨rfl, rfl, fun hi => ?_⟩
  have hfit : (OptionalPassthrough.init t true).fit Z X = ⟨t, none, true, true⟩ := rfl
  rw [hfit]
  unfold OptionalPassthrough.inverse_transform
  rw [if_neg (not_not_intro hi)]
  rfl

/-- Claim C8 witness: the identity-passthrough behaviour at a concrete
series. -/
theorem claimC8_witness :
    ((OptionalPassthrough.init idWrapped true).fit (.ser serFix) none).transformer_ = none
    ∧ ((OptionalPassthrough.init idWrapped true).fit (.ser serFix) none).transform
        (.ser serFix) none = .ok (.ser serFix)
    ∧ ((OptionalPassthrough.init idWrapped true).fit (.ser serFix) none).inverse_transform
        (.ser serFix) none = .ok (.ser serFix) :=
  ⟨(claimC8 idWrapped (.ser serFix) (.ser serFix) none none).1,
   (claimC8 idWrapped (.ser serFix) (.ser serFix) none none).2.1,
   (claimC8 idWrapped (.ser serFix) (.ser serFix) none none).2.2 rfl⟩

/-- Claim C9: `ColumnwiseTransformer.transform` on a frame succeeds only with
a frame output having the same index (rows) and the same columns as the
input, in which every column outside the selected `columns_` carries its
input values; the input itself is untouched, the loop operating on the copy
taken at the start of `transform`. -/
theorem claimC9 (ct : ColumnwiseTransformer) (z d : PDataFrame) (X : Option PDataFrame)
    (h : ct.transform (.df z) X = .ok (.df d)) :
    d.index = z.index ∧ d.columns = z.columns ∧
      ∀ c, c ∉ ct.columns_ → assocLookup d.cols c = assocLookup z.cols c := by
  unfold ColumnwiseTransformer.transform at h
  cases hf : ct.is_fitted with
  | false =>
    rw [hf] at h
    have h' : (Except.error (PyError.notFittedError
        "This instance has not been fitted yet; please call fit first.")
        : Except PyError SeriesInput) = .ok (.df d) := h
    cases h'
  | true =>
    rw [hf] at h
    simp only [check_is_fitted, check_series, Bind.bind, Except.bind] at h
    dsimp only [_check_is_pdseries] at h
    rcases check_columns_cases z ct.columns_ with hc | ⟨m, hc⟩
    · rw [hc] at h
      dsimp only at h
      cases ha : applyColumns ct.transformers_ X ct.columns_ z with
      | error e =>
        rw [ha] at h
        have h' : (Except.error e : Except PyError SeriesInput) = .ok (.df d) := h
        cases h'
      | ok zout =>
        rw [ha] at h
        have h' : (Except.ok (SeriesInput.df zout) : Except PyError SeriesInput)
            = .ok (.df d) := h
        have hzd : zout = d := by
          injection h' with h3
          injection h3 with h4
        subst hzd
        exact applyColumns_ok_spec ct.transformers_ X ct.columns_ z zout
          ((check_columns_ok_iff z ct.columns_).mp hc) ha
    · rw [hc] at h
      have h' : (Except.error (PyError.valueError m) : Except PyError SeriesInput)
          = .ok (.df d) := h
      cases h'

/-- Claim C9 witness: zeroing column `a` of the fixture frame keeps the
index, the column list, and the untouched column `b`. -/
theorem claimC9_witness :
    dfZeroFix.index = dfFix.index ∧ dfZeroFix.columns = dfFix.columns
    ∧ assocLookup dfZeroFix.cols "b" = assocLookup dfFix.cols "b" := by
  obtain ⟨h1, h2, h3⟩ := claimC9 cwZeroFix dfFix dfZeroFix none rfl
  exact ⟨h1, h2, h3 "b" (by decide)⟩

/-- Claim C10: after a successful `fit` with `columns=None`, `columns_` is the
full column list of the DataFrame-cast input, the keys of `transformers_` are
exactly `columns_`, and each key maps to a fresh clone of the wrapped
transformer fitted on that single column. -/
theorem claimC10 (t : Transformer) (Z : SeriesInput) (X : Option PDataFrame)
    (st' : ColumnwiseTransformer)
    (h : (ColumnwiseTransformer.init t none).fit Z X = .ok st') :
    st'.columns_ = Z.toFrame.columns
    ∧ st'.transformers_.map Prod.fst = st'.columns_
    ∧ ∀ c ∈ st'.columns_,
        assocLookup st'.transformers_ c = some (t.fitF (.ser (Z.toFrame.getCol c)) X) := by
  obtain ⟨hc, hrec⟩ := columnwise_fit_ok _ _ _ _ h
  subst hrec
  refine ⟨rfl, ?_, ?_⟩
  · dsimp only
    exact map_fst_pairs _ _
  · intro c hcmem
    dsimp only at hcmem ⊢
    rw [assocLookup_map_self, if_pos hcmem]
    rfl

/-- Claim C10 witness: fitting on the fixture frame with `columns=None`. -/
theorem claimC10_witness :
    cwFitResFix.columns_ = (SeriesInput.df dfFix).toFrame.columns
    ∧ cwFitResFix.transformers_.map Prod.fst = cwFitResFix.columns_
    ∧ assocLookup cwFitResFix.transformers_ "a"
        = some (idWrapped.fitF (.ser ((SeriesInput.df dfFix).toFrame.getCol "a")) none) := by
  obtain ⟨h1, h2, h3⟩ := claimC10 idWrapped (.df dfFix) none cwFitResFix rfl
  exact ⟨h1, h2, h3 "a" (by decide)⟩

end Sktime
